import Mathlib

/-!
Verification of `getNeighborship` from `prst/utils/gridtools.py`.

The function extracts the neighborship relation (pairs of adjacent cells)
from a grid object `G`:

  N = G.faces.neighbors
  if not incBdry:
      N = N[np.all(N != -1, axis=1), :]
  if nargout >= 2:
      isnnc = np.zeros((N.shape[0], 1), dtype=bool)
  if kind=="Topological" and hasattr(G, "nnc") and hasattr(G.nnc, "cells"):
      assert G.nnc.cells.shape[1] == 2
      N = np.vstack((N, G.nnc.cells))
  if nargout >= 2:
      try:
          isnnc = np.vstack((isnnc, np.ones((G.nnc.cells.shape[0], 1), 1)))
      except AttributeError:
          pass
      return N, isnnc
  else:
      return N

Embedding choices:
* a 2-D numpy integer array is a column count together with a list of rows
  (the column count is carried explicitly so that an empty array still has a
  definite `shape[1]`, as in numpy);
* optional attributes (`G.nnc`, `G.nnc.cells`) become `Option` fields, so that
  `hasattr` is an `Option` match and an `AttributeError` is the `none` case;
* the boolean flag column `isnnc` is a `List Bool`; the appended block
  `np.ones((K, 1), 1)` (dtype type-number 1, i.e. int8) holds ones, modelled
  as `true` flags;
* the `assert` statement and the `ValueError` that `np.vstack` raises on a
  column-count mismatch become `Except` errors.
-/

namespace PRST

/-- A 2-D numpy integer array: an explicit column count (`shape[1]`) and the
list of rows.  Rows are expected to have length `cols`. -/
structure Arr2 where
  cols : Nat
  rows : List (List Int)
deriving DecidableEq, Repr

/-- `shape[0]` of a 2-D array: the number of rows. -/
def Arr2.nrows (a : Arr2) : Nat := a.rows.length

/-- `np.vstack` on two 2-D arrays: concatenates the rows; numpy raises a
`ValueError` when the column counts differ, modelled as `none`. -/
def vstack (a b : Arr2) : Option Arr2 :=
  if a.cols = b.cols then some ⟨a.cols, a.rows ++ b.rows⟩ else none

/-- The `G.nnc` sub-structure; `cells = none` models an `nnc` object with no
`cells` attribute. -/
structure NNCData where
  cells : Option Arr2
deriving DecidableEq, Repr

/-- The `G.faces` sub-structure. -/
structure FacesData where
  neighbors : Arr2
deriving DecidableEq, Repr

/-- A PRST grid, restricted to the fields `getNeighborship` reads;
`nnc = none` models a grid without an `nnc` attribute. -/
structure Grid where
  faces : FacesData
  nnc : Option NNCData
deriving DecidableEq, Repr

/-- The exceptions `getNeighborship` can raise: the failed
`assert G.nnc.cells.shape[1] == 2`, and the `ValueError` from
`np.vstack((N, G.nnc.cells))` when `N` itself does not have two columns. -/
inductive GNErr where
  | assertionError
  | valueError
deriving DecidableEq, Repr

/-- The value returned by `getNeighborship`: `N` alone, or the pair
`(N, isnnc)`. -/
inductive GNOut where
  | one (N : Arr2)
  | two (N : Arr2) (isnnc : List Bool)
deriving DecidableEq, Repr

/-- Whether `getNeighborship` returned the pair `(N, isnnc)`. -/
def GNOut.isTwo : GNOut → Bool
  | .one _ => false
  | .two _ _ => true

/-- The row mask `np.all(N != -1, axis=1)`: every entry of the row differs
from the boundary sentinel `-1`. -/
def rowKeep (r : List Int) : Bool := r.all (fun x => x ≠ -1)

/-- `G.nnc.cells` as one optional access: `some` exactly when
`hasattr(G, "nnc") and hasattr(G.nnc, "cells")`; an `AttributeError` on the
chain `G.nnc.cells` corresponds to `none`. -/
def nncCells (G : Grid) : Option Arr2 :=
  match G.nnc with
  | some d => d.cells
  | none => none

/-- Rows of `N` after the boundary step: `G.faces.neighbors` itself when
`incBdry`, else `N[np.all(N != -1, axis=1), :]`. -/
def geomRows (G : Grid) (incBdry : Bool) : List (List Int) :=
  if incBdry then G.faces.neighbors.rows
  else G.faces.neighbors.rows.filter rowKeep

/-- `N` after the boundary step (the filter keeps the column count). -/
def boundaryFiltered (G : Grid) (incBdry : Bool) : Arr2 :=
  ⟨G.faces.neighbors.cols, geomRows G incBdry⟩

/-- The block `if kind=="Topological" and hasattr(G,"nnc") and
hasattr(G.nnc,"cells"): assert G.nnc.cells.shape[1] == 2;
N = np.vstack((N, G.nnc.cells))`, applied to the boundary-filtered `N`. -/
def topoAppend (G : Grid) (kind : String) (N1 : Arr2) : Except GNErr Arr2 :=
  if kind = "Topological" then
    match nncCells G with
    | some cells =>
        if cells.cols = 2 then
          match vstack N1 cells with
          | some N2 => .ok N2
          | none => .error .valueError
        else .error .assertionError
    | none => .ok N1
  else .ok N1

/-- The block `try: isnnc = np.vstack((isnnc, np.ones((G.nnc.cells.shape[0],
1), 1))) except AttributeError: pass`: when `G.nnc.cells` exists, a column of
`G.nnc.cells.shape[0]` ones (true flags) is appended to `isnnc`, whatever
`kind` is; a missing attribute leaves `isnnc` unchanged. -/
def flagsAppend (G : Grid) (isnnc : List Bool) : List Bool :=
  match nncCells G with
  | some cells => isnnc ++ List.replicate cells.nrows true
  | none => isnnc

/-- `getNeighborship(G, kind, incBdry, nargout)` from
`prst/utils/gridtools.py`, assembled from the blocks above in source order:
boundary filter, initial all-false `isnnc` of the filtered length, the
`Topological` append to `N`, the unconditional flag append, and the
`nargout >= 2` arity choice. -/
def getNeighborship (G : Grid) (kind : String := "Geometrical")
    (incBdry : Bool := false) (nargout : Int := 1) : Except GNErr GNOut :=
  match topoAppend G kind (boundaryFiltered G incBdry) with
  | .error e => .error e
  | .ok N2 =>
      if 2 ≤ nargout then
        .ok (.two N2
          (flagsAppend G (List.replicate (boundaryFiltered G incBdry).nrows false)))
      else .ok (.one N2)

/-- The returned `N`, in either arity; `none` when the call raised. -/
def gnN : Except GNErr GNOut → Option Arr2
  | .ok (.one N) => some N
  | .ok (.two N _) => some N
  | .error _ => none

/-- Whether the call returned normally. -/
def gnIsOk : Except GNErr GNOut → Bool
  | .ok _ => true
  | .error _ => false

/-- The spec's example neighbor array `[[0,1],[1,2],[-1,0]]`. -/
def exNeighbors : Arr2 := ⟨2, [[0, 1], [1, 2], [-1, 0]]⟩

/-- The spec's example NNC array `[[3,5]]`. -/
def exCells : Arr2 := ⟨2, [[3, 5]]⟩

/-- The example grid without an `nnc` attribute. -/
def gridNoNNC : Grid := ⟨⟨exNeighbors⟩, none⟩

/-- The example grid carrying `nnc.cells = [[3,5]]`. -/
def gridWithNNC : Grid := ⟨⟨exNeighbors⟩, some ⟨some exCells⟩⟩

/-- A grid whose `nnc` object has no `cells` attribute. -/
def gridNNCNoCells : Grid := ⟨⟨exNeighbors⟩, some ⟨none⟩⟩

/-- A grid whose `nnc.cells` has three columns. -/
def gridBadCells : Grid := ⟨⟨exNeighbors⟩, some ⟨some ⟨3, [[1, 2, 3]]⟩⟩⟩

/-- Case analysis for a normal return of the `Topological` append: either the
array is unchanged (and then the grid has no applicable NNC data or the kind
is not `Topological`), or the NNC rows were appended. -/
lemma topoAppend_ok_cases (G : Grid) (kind : String) (N1 N2 : Arr2)
    (h : topoAppend G kind N1 = .ok N2) :
    (N2 = N1 ∧ (kind ≠ "Topological" ∨ nncCells G = none)) ∨
    (∃ cells, kind = "Topological" ∧ nncCells G = some cells ∧ cells.cols = 2 ∧
      N2 = ⟨N1.cols, N1.rows ++ cells.rows⟩) := by
  unfold topoAppend at h
  split at h
  next hk =>
    split at h
    next cells hcell =>
      split at h
      next hc2 =>
        split at h
        next N2a hv =>
          simp only [Except.ok.injEq] at h
          unfold vstack at hv
          split at hv
          next hcc =>
            simp only [Option.some.injEq] at hv
            exact Or.inr ⟨cells, hk, hcell, hc2, by rw [← h, ← hv]⟩
          next hcc => exact Option.noConfusion hv
        next hv => exact Except.noConfusion h
      next hc2 => exact Except.noConfusion h
    next hcell =>
      simp only [Except.ok.injEq] at h
      exact Or.inl ⟨h.symm, Or.inr hcell⟩
  next hk =>
    simp only [Except.ok.injEq] at h
    exact Or.inl ⟨h.symm, Or.inl hk⟩

/-- C1: the spec says that in `Geometrical` mode a requested `isnnc` is
always all-false; the code appends true flags whenever `G.nnc.cells` exists,
because the flag-append block is not guarded by the kind.  Evaluation at the
spec's own example grid extended with `nnc.cells = [[3,5]]`: in `Geometrical`
mode with `incBdry = False` and `nargout = 2` the returned `isnnc` is
`[False, False, True]`, which is not all-false. -/
theorem geometrical_flags_not_allfalse :
    getNeighborship gridWithNNC "Geometrical" false 2 =
      .ok (.two ⟨2, [[0, 1], [1, 2]]⟩ [false, false, true]) ∧
    ([false, false, true] : List Bool) ≠ List.replicate 3 false :=
  ⟨rfl, by decide⟩

/-- C2: the spec's invariant `isnnc.shape[0] == N.shape[0]` fails on the
code: in `Geometrical` mode on a grid with `nnc.cells = [[3,5]]` and
`incBdry = True`, `N` keeps its 3 rows while `isnnc` gets 4 entries. -/
theorem flags_misaligned_with_rows :
    getNeighborship gridWithNNC "Geometrical" true 2 =
      .ok (.two exNeighbors [false, false, false, true]) ∧
    exNeighbors.nrows ≠ ([false, false, false, true] : List Bool).length :=
  ⟨rfl, by decide⟩

/-- C3: in `Topological` mode on a grid whose `nnc.cells` has two columns,
with flags requested, the result is the pair whose `N` is the filtered
geometric block followed by the NNC rows and whose `isnnc` is `M` false
entries (one per geometric row) followed by `K` true entries (one per NNC
row), aligned with the rows of `N`. -/
theorem topological_flags_blocks (G : Grid) (incBdry : Bool) (nargout : Int)
    (cells : Arr2) (hn : nncCells G = some cells) (hc : cells.cols = 2)
    (hg : G.faces.neighbors.cols = 2) (h2 : 2 ≤ nargout) :
    getNeighborship G "Topological" incBdry nargout =
      .ok (.two ⟨2, geomRows G incBdry ++ cells.rows⟩
        (List.replicate (geomRows G incBdry).length false ++
          List.replicate cells.nrows true)) := by
  simp [getNeighborship, topoAppend, vstack, flagsAppend, boundaryFiltered,
    Arr2.nrows, hn, hc, hg, h2]

/-- C3 witness: the spec's example, `G.nnc.cells = [[3,5]]`, `Topological`,
`incBdry = False`, `nargout = 2`. -/
theorem topological_flags_blocks_witness :
    getNeighborship gridWithNNC "Topological" false 2 =
      .ok (.two ⟨2, geomRows gridWithNNC false ++ exCells.rows⟩
        (List.replicate (geomRows gridWithNNC false).length false ++
          List.replicate exCells.nrows true)) :=
  topological_flags_blocks gridWithNNC false 2 exCells rfl rfl rfl (by decide)

/-- C4: in `Topological` mode on a grid whose `nnc.cells` has two columns,
for either arity, the returned `N` is the filtered geometric block followed
by the NNC rows in their original order, so its row count is `M + K`. -/
theorem topological_rows_appended (G : Grid) (incBdry : Bool) (nargout : Int)
    (cells : Arr2) (hn : nncCells G = some cells) (hc : cells.cols = 2)
    (hg : G.faces.neighbors.cols = 2) :
    gnN (getNeighborship G "Topological" incBdry nargout) =
      some ⟨2, geomRows G incBdry ++ cells.rows⟩ ∧
    (Arr2.mk 2 (geomRows G incBdry ++ cells.rows)).nrows =
      (geomRows G incBdry).length + cells.nrows := by
  constructor
  · rcases le_or_lt 2 nargout with h2 | h2
    · simp [getNeighborship, topoAppend, vstack, gnN, boundaryFiltered,
        hn, hc, hg, h2]
    · simp [getNeighborship, topoAppend, vstack, gnN, boundaryFiltered,
        hn, hc, hg, not_le.mpr h2]
  · simp [Arr2.nrows]

/-- C4 witness: the spec's example grid with `nnc.cells = [[3,5]]`,
`Topological`, `incBdry = False`, `nargout = 1`. -/
theorem topological_rows_appended_witness :
    gnN (getNeighborship gridWithNNC "Topological" false 1) =
      some ⟨2, geomRows gridWithNNC false ++ exCells.rows⟩ ∧
    (Arr2.mk 2 (geomRows gridWithNNC false ++ exCells.rows)).nrows =
      (geomRows gridWithNNC false).length + exCells.nrows :=
  topological_rows_appended gridWithNNC false 1 exCells rfl rfl rfl

/-- C5 counterexample: the claim quantifies over every kind, but in
`Topological` mode on a grid with NNC data the returned `N` is not the
boundary-filtered `G.faces.neighbors`: at the spec's example grid with
`nnc.cells = [[3,5]]` it also contains the appended row `[3,5]`. -/
theorem boundary_claim_counterexample :
    ¬ (gnN (getNeighborship gridWithNNC "Topological" false 1) =
        some ⟨2, gridWithNNC.faces.neighbors.rows.filter rowKeep⟩) := by
  decide

/-- C5 amended: for every kind, the returned `N` starts with exactly the
boundary-filtered rows of `G.faces.neighbors` (all rows when `incBdry`, else
exactly the rows with both entries different from `-1`, in original order),
and `N` consists of exactly those rows whenever no NNC block applies (kind
other than `Topological`, or no `nnc.cells` on the grid). -/
theorem boundary_filter_amended (G : Grid) (kind : String) (incBdry : Bool)
    (nargout : Int) (N : Arr2)
    (h : gnN (getNeighborship G kind incBdry nargout) = some N) :
    N.rows.take (geomRows G incBdry).length = geomRows G incBdry ∧
    ((kind ≠ "Topological" ∨ nncCells G = none) → N.rows = geomRows G incBdry) := by
  unfold getNeighborship at h
  cases hta : topoAppend G kind (boundaryFiltered G incBdry) with
  | error e => rw [hta] at h; simp [gnN] at h
  | ok N2 =>
      rw [hta] at h
      have hN : N = N2 := by
        by_cases h2 : 2 ≤ nargout
        · simp [gnN, h2] at h; exact h.symm
        · simp [gnN, h2] at h; exact h.symm
      subst hN
      rcases topoAppend_ok_cases G kind _ _ hta with ⟨rfl, _⟩ | ⟨cells, hk, hcell, _, rfl⟩
      · exact ⟨List.take_length _, fun _ => rfl⟩
      · refine ⟨List.take_left _ _, fun hside => ?_⟩
        rcases hside with hside | hside
        · exact absurd hk hside
        · rw [hside] at hcell; cases hcell

/-- C5 amended witness: `Geometrical` mode on the example grid with an NNC
block, `incBdry = False`. -/
theorem boundary_filter_amended_witness :
    (Arr2.mk 2 [[0, 1], [1, 2]]).rows.take
        (geomRows gridWithNNC false).length = geomRows gridWithNNC false ∧
    (("Geometrical" : String) ≠ "Topological" ∨ nncCells gridWithNNC = none →
      (Arr2.mk 2 [[0, 1], [1, 2]]).rows = geomRows gridWithNNC false) :=
  boundary_filter_amended gridWithNNC "Geometrical" false 1 ⟨2, [[0, 1], [1, 2]]⟩ rfl

/-- C6: in `Topological` mode, an `nnc.cells` whose column count is not 2
makes the call fail with the assertion error, for every `incBdry` and
`nargout`, before any output is produced. -/
theorem badcols_assertion (G : Grid) (incBdry : Bool) (nargout : Int)
    (cells : Arr2) (hn : nncCells G = some cells) (hc : cells.cols ≠ 2) :
    getNeighborship G "Topological" incBdry nargout = .error .assertionError := by
  simp [getNeighborship, topoAppend, hn, hc]

/-- C6 witness: a 3-column `nnc.cells`. -/
theorem badcols_assertion_witness :
    getNeighborship gridBadCells "Topological" false 2 = .error .assertionError :=
  badcols_assertion gridBadCells false 2 ⟨3, [[1, 2, 3]]⟩ rfl (by decide)

/-- C7: when the grid has no `nnc` attribute or its `nnc` has no `cells`
attribute, `Topological` mode returns normally with the boundary-filtered
geometric `N`; when flags are requested the all-false `isnnc` is still
returned. -/
theorem missing_nnc_graceful (G : Grid) (incBdry : Bool) (nargout : Int)
    (h : nncCells G = none) :
    getNeighborship G "Topological" incBdry nargout =
      (if 2 ≤ nargout then
        .ok (.two (boundaryFiltered G incBdry)
          (List.replicate (boundaryFiltered G incBdry).nrows false))
      else .ok (.one (boundaryFiltered G incBdry))) := by
  by_cases h2 : 2 ≤ nargout <;>
    simp [getNeighborship, topoAppend, flagsAppend, h, h2]

/-- C7 witness: a grid whose `nnc` has no `cells` attribute, flags
requested. -/
theorem missing_nnc_graceful_witness :
    getNeighborship gridNNCNoCells "Topological" false 2 =
      (if (2 : Int) ≤ 2 then
        .ok (.two (boundaryFiltered gridNNCNoCells false)
          (List.replicate (boundaryFiltered gridNNCNoCells false).nrows false))
      else .ok (.one (boundaryFiltered gridNNCNoCells false))) :=
  missing_nnc_graceful gridNNCNoCells false 2 rfl

/-- C8: the spec says `Geometrical` mode never consults `nnc`; the code's
flag-append block does.  Two grids with the same `faces.neighbors`, one
without `nnc` and one with `nnc.cells = [[3,5]]`, give different `isnnc`
results in `Geometrical` mode with `nargout = 2`. -/
theorem geometrical_consults_nnc :
    gridNoNNC.faces = gridWithNNC.faces ∧
    getNeighborship gridNoNNC "Geometrical" true 2 =
      .ok (.two exNeighbors [false, false, false]) ∧
    getNeighborship gridWithNNC "Geometrical" true 2 =
      .ok (.two exNeighbors [false, false, false, true]) ∧
    ([false, false, false] : List Bool) ≠ [false, false, false, true] :=
  ⟨rfl, rfl, rfl, by decide⟩

/-- C9: whether the call returns normally does not depend on `nargout`, and
a normal result is the pair `(N, isnnc)` precisely when `nargout >= 2`
(so also for larger values, and `N` alone for 1, 0 or negative values). -/
theorem nargout_threshold (G : Grid) (kind : String) (incBdry : Bool)
    (n m : Int) :
    gnIsOk (getNeighborship G kind incBdry n) =
      gnIsOk (getNeighborship G kind incBdry m) ∧
    (∀ out, getNeighborship G kind incBdry n = .ok out →
      (out.isTwo = true ↔ 2 ≤ n)) := by
  unfold getNeighborship
  cases hta : topoAppend G kind (boundaryFiltered G incBdry) with
  | error e => simp [gnIsOk]
  | ok N2 =>
      constructor
      · by_cases h2 : 2 ≤ n <;> by_cases h2' : 2 ≤ m <;>
          simp [h2, h2', gnIsOk]
      · intro out hout
        by_cases h2 : 2 ≤ n
        · simp [h2] at hout
          subst hout
          simp [GNOut.isTwo, h2]
        · simp [h2] at hout
          subst hout
          simp [GNOut.isTwo, h2]

/-- C9 witness: `nargout = 5` and `nargout = 0` on the example grid; the
result with `nargout = 5` is the pair. -/
theorem nargout_threshold_witness :
    gnIsOk (getNeighborship gridNoNNC "Geometrical" true 5) =
      gnIsOk (getNeighborship gridNoNNC "Geometrical" true 0) ∧
    ((GNOut.two exNeighbors [false, false, false]).isTwo = true ↔ (2 : Int) ≤ 5) :=
  ⟨(nargout_threshold gridNoNNC "Geometrical" true 5 0).1,
    (nargout_threshold gridNoNNC "Geometrical" true 5 0).2
      (GNOut.two exNeighbors [false, false, false]) rfl⟩

/-- C10: the kind is never validated: any kind other than the exact string
`"Topological"` behaves identically to `"Geometrical"` on the same grid,
`incBdry` and `nargout`. -/
theorem kind_not_validated (G : Grid) (incBdry : Bool) (nargout : Int)
    (kind : String) (h : kind ≠ "Topological") :
    getNeighborship G kind incBdry nargout =
      getNeighborship G "Geometrical" incBdry nargout := by
  unfold getNeighborship topoAppend
  rw [if_neg h, if_neg (by decide : ¬ ("Geometrical" = "Topological"))]

/-- C10 witness: the lowercase string `"topological"` on the example grid
with NNC data. -/
theorem kind_not_validated_witness :
    getNeighborship gridWithNNC "topological" false 1 =
      getNeighborship gridWithNNC "Geometrical" false 1 :=
  kind_not_validated gridWithNNC false 1 "topological" (by decide)

end PRST
